import Mathlib

/-!
# Verification of the `yasb` glucose-monitor widget

Shallow embedding of `src/core/widgets/yasb/glucose_monitor.py`
(`GlucoseMonitorWorker` and `GlucoseMonitor`) and proofs about it.

Modelling conventions:
* JSON numbers are rationals (`ℚ`); machine floats are modelled by exact
  rational arithmetic.
* Python exceptions become an explicit `PyExc` value; a handler returns the
  emitted error-sink messages, an `Except PyExc Unit` outcome, and the
  widget state as left behind when the handler returned or raised.
* Qt signals emitted by one `run()` invocation are collected into a list.
-/

/-- Python exceptions that the embedded code can raise. -/
inductive PyExc where
  | valueError
  | keyError (key : String)
  | typeError
  | indexError
  deriving DecidableEq, Repr

/-- A JSON value as produced by `json.loads`. -/
inductive JValue where
  | num (q : ℚ)
  | str (s : String)
  | bool (b : Bool)
  | null
  | arr (elems : List JValue)
  | obj (fields : List (String × JValue))

/-- First-match association-list lookup; Python `dict.get` / `dict[...]`
on the dictionaries of the source (whose keys are distinct). -/
def dictGet {α : Type} (k : String) : List (String × α) → Option α
  | [] => none
  | (k', v) :: rest => if k' = k then some v else dictGet k rest

/-- A signal emitted by `GlucoseMonitorWorker.run`: either
`status_updated(sgv, delta, dateString, direction)` or `error_signal(msg)`. -/
inductive Signal where
  | status (sgv delta : ℚ) (dateString direction : String)
  | error (msg : String)
  deriving DecidableEq, Repr

/-- Outcome of `urllib.request.urlopen` + `response.read()` + `json.loads`
as seen by the `try` block of `run`: either some exception was raised
(transport failure, `HTTPError`, decode failure, malformed JSON), or a
returned response with its HTTP status and, when the body parsed as JSON,
its parsed value (`none` = `json.loads` raised).  The default urllib
opener raises `urllib.error.HTTPError` for every non-2xx status, so in a
real execution `response` only ever carries a 2xx status: the inputs the
program can produce are exactly the values of `urlopenResult`. -/
inductive NetResult where
  | raised
  | response (status : ℤ) (body : Option JValue)

/-- `data[0]` followed by the four key reads in
`GlucoseMonitorWorker.run` (lines 54-60): succeeds only when the JSON is
an array whose first element is an object carrying numeric `sgv` and
`delta` and string `dateString` and `direction`; every other shape makes
one of those subscript/emit operations raise. -/
def readEntry (j : JValue) : Option (ℚ × ℚ × String × String) :=
  match j with
  | JValue.arr (JValue.obj fields :: _) =>
    match dictGet "sgv" fields, dictGet "delta" fields,
          dictGet "dateString" fields, dictGet "direction" fields with
    | some (JValue.num sgv), some (JValue.num delta),
      some (JValue.str ds), some (JValue.str dir) => some (sgv, delta, ds, dir)
    | _, _, _, _ => none
  | _ => none

/-- `GlucoseMonitorWorker.run` (lines 42-64): returns the list of signals
emitted by one invocation, in order.  `running = false` returns at once;
any exception out of the `try` block is converted into a single
`error_signal`. -/
def workerRun (running : Bool) (net : NetResult) : List Signal :=
  if running = false then []
  else
    match net with
    | NetResult.raised => [Signal.error "Error while loading response"]
    | NetResult.response status body =>
      match body with
      | none => [Signal.error "Error while loading response"]
      | some j =>
        if status ≠ 200 then
          [Signal.error ("Response status code should be 200 but got " ++ toString status)]
        else
          match readEntry j with
          | none => [Signal.error "Error while loading response"]
          | some (sgv, delta, ds, dir) => [Signal.status sgv delta ds dir]

/-- `urllib.request.urlopen` (line 47) on an exchange that completed with
the given final HTTP status and body: the default opener returns the
response object only for 2xx statuses and raises
`urllib.error.HTTPError` — an exception, caught by the bare `except` of
`run` — for every other status. -/
def urlopenResult (status : ℤ) (body : Option JValue) : NetResult :=
  if 200 ≤ status ∧ status ≤ 299 then NetResult.response status body
  else NetResult.raised

/-- One whole fetch cycle of the worker against an HTTP exchange that
completed with the given status and body: `run` applied to what `urlopen`
produces for it. -/
def fetchCycle (running : Bool) (status : ℤ) (body : Option JValue) : List Signal :=
  workerRun running (urlopenResult status body)

/-- Line 99: `self._secret = secret != "env" and secret or os.getenv(secret_env_name)`.
Python truthiness: when `secret` equals `"env"` the conjunction is `False`
and the `or` falls through to the environment variable; when `secret` is
the empty string the conjunction yields `""`, which is falsy, so the `or`
falls through as well; otherwise the literal is kept. -/
def resolveSecret (secret : String) (envValue : Option String) : Option String :=
  if secret = "env" then envValue
  else if secret = "" then envValue
  else some secret

/-- Python `round()` on an exact value: round half to even (banker's
rounding), as used by `str(round(sgv))` at line 105. -/
def pyRound (q : ℚ) : ℤ :=
  if q - ⌊q⌋ < 1 / 2 then ⌊q⌋
  else if 1 / 2 < q - ⌊q⌋ then ⌊q⌋ + 1
  else if ⌊q⌋ % 2 = 0 then ⌊q⌋ else ⌊q⌋ + 1

/-- Rounding half away from zero, the tie rule the specification text
prescribes for `"mg/dl"`; stated here only to compare against the code's
`pyRound`. -/
def roundHalfAwayFromZero (q : ℚ) : ℤ :=
  if 0 ≤ q then ⌊q + 1 / 2⌋ else -⌊-q + 1 / 2⌋

/-- The `"mg/dl"` converter, line 105: `lambda sgv: str(round(sgv))`. -/
def convertMgdl (q : ℚ) : String := toString (pyRound q)

/-- The conversion the specification's words describe for `"mg/dl"`:
nearest-integer string with ties rounded away from zero. -/
def convertMgdlClaimed (q : ℚ) : String := toString (roundHalfAwayFromZero q)

/-- The `"mmol/l"` converter, line 106: `f"{sgv / 18:.1f}"` — divide by 18
and format with exactly one fractional digit (round half to even on the
exact value). -/
def convertMmoll (q : ℚ) : String :=
  let n := pyRound (q / 18 * 10)
  (if n < 0 then "-" else "") ++ toString (n.natAbs / 10) ++ "." ++ toString (n.natAbs % 10)

/-- `self._available_sgv_measurement_units` (lines 104-107). -/
def availableSgvMeasurementUnits : List (String × (ℚ → String)) :=
  [("mg/dl", convertMgdl), ("mmol/l", convertMmoll)]

/-- Line 180: `int((now - last_update_time).total_seconds() // 60)` —
floor division of the elapsed seconds by 60.  Instants carry microsecond
resolution (`datetime` precision), so they are integers of microseconds
since the epoch and one minute is `60000000` microseconds. -/
def minutesSince (t now : ℤ) : ℤ := Int.fdiv (now - t) 60000000

/-- `Int.fdiv` by one minute of microseconds is the floor of the elapsed
seconds divided by 60. -/
theorem minutesSince_eq_floor (t now : ℤ) :
    minutesSince t now = ⌊((now - t : ℤ) : ℚ) / 1000000 / 60⌋ := by
  rw [minutesSince, div_div]
  rw [show ((1000000 : ℚ) * 60) = ((60000000 : ℕ) : ℚ) by norm_num,
      Rat.floor_intCast_div_natCast, Int.fdiv_eq_ediv _ (by norm_num)]
  rfl

/-- A parsed aware datetime, the result of a successful
`datetime.strptime(s, "%Y-%m-%dT%H:%M:%S.%f%z")` (line 179; the format is
`GlucoseMonitor.datetime_format`, line 71). -/
structure PyDatetime where
  year : ℕ
  month : ℕ
  day : ℕ
  hour : ℕ
  minute : ℕ
  second : ℕ
  micro : ℕ
  tzOffsetMinutes : ℤ
  deriving DecidableEq, Repr

/-- Numeric value of a decimal digit character, if it is one. -/
def digitVal (c : Char) : Option ℕ :=
  if '0' ≤ c ∧ c ≤ '9' then some (c.toNat - 48) else none

/-- Read exactly two decimal digits. -/
def takeTwoDigits : List Char → Option (ℕ × List Char)
  | c1 :: c2 :: rest =>
    match digitVal c1, digitVal c2 with
    | some d1, some d2 => some (d1 * 10 + d2, rest)
    | _, _ => none
  | _ => none

/-- Read exactly four decimal digits (`%Y`). -/
def takeFourDigits (cs : List Char) : Option (ℕ × List Char) :=
  match takeTwoDigits cs with
  | none => none
  | some (hi, rest) =>
    match takeTwoDigits rest with
    | none => none
    | some (lo, rest') => some (hi * 100 + lo, rest')

/-- Expect one literal character. -/
def expectChar (c : Char) : List Char → Option (List Char)
  | c' :: rest => if c' = c then some rest else none
  | _ => none

/-- Read `%f`: one to six decimal digits, scaled to microseconds. -/
def takeFraction (cs : List Char) : Option (ℕ × List Char) :=
  match cs with
  | c1 :: rest1 =>
    match digitVal c1 with
    | none => none
    | some d1 =>
      let step := fun (acc : ℕ × ℕ) (r : List Char) =>
        match r with
        | c :: r' =>
          match digitVal c with
          | some d => if acc.2 < 6 then some ((acc.1 * 10 + d, acc.2 + 1), r') else none
          | none => none
        | [] => none
      -- unrolled greedy scan of up to five further digits
      let rec grab : ℕ → (ℕ × ℕ) → List Char → (ℕ × ℕ) × List Char
        | 0, acc, r => (acc, r)
        | Nat.succ fuel, acc, r =>
          match step acc r with
          | some (acc', r') => grab fuel acc' r'
          | none => (acc, r)
      let ((v, len), rest) := grab 5 (d1, 1) rest1
      some (v * 10 ^ (6 - len), rest)
  | [] => none

/-- Read `%z`.  CPython's `_strptime` makes the offset mandatory for `%z`:
it must be `±HHMM`, `±HH:MM` (minutes 00-59) or a literal `Z`; an empty
remainder does not match. -/
def takeOffset (cs : List Char) : Option (ℤ × List Char) :=
  match cs with
  | 'Z' :: rest => some (0, rest)
  | c :: rest =>
    if c = '+' ∨ c = '-' then
      match takeTwoDigits rest with
      | none => none
      | some (hh, rest1) =>
        let rest2 := match rest1 with
          | ':' :: r => r
          | r => r
        match takeTwoDigits rest2 with
        | none => none
        | some (mm, rest3) =>
          if mm ≤ 59 then
            let total : ℤ := hh * 60 + mm
            some (if c = '-' then -total else total, rest3)
          else none
    else none
  | [] => none

/-- Days in a month of the (proleptic Gregorian) calendar. -/
def daysInMonth (year month : ℕ) : ℕ :=
  if month = 2 then
    if year % 4 = 0 ∧ (year % 100 ≠ 0 ∨ year % 400 = 0) then 29 else 28
  else if month = 4 ∨ month = 6 ∨ month = 9 ∨ month = 11 then 30
  else 31

/-- `datetime.strptime(s, "%Y-%m-%dT%H:%M:%S.%f%z")`, line 179.  Returns
`none` when CPython would raise `ValueError`: wrong shape, field out of
range, unconverted trailing data, or — decisive for the claims — a missing
UTC offset, since `%z` requires one. -/
def parseDatetime (s : String) : Option PyDatetime :=
  match takeFourDigits s.data with
  | none => none
  | some (y, r0) =>
  match expectChar '-' r0 with
  | none => none
  | some r1 =>
  match takeTwoDigits r1 with
  | none => none
  | some (mo, r2) =>
  match expectChar '-' r2 with
  | none => none
  | some r3 =>
  match takeTwoDigits r3 with
  | none => none
  | some (d, r4) =>
  match expectChar 'T' r4 with
  | none => none
  | some r5 =>
  match takeTwoDigits r5 with
  | none => none
  | some (h, r6) =>
  match expectChar ':' r6 with
  | none => none
  | some r7 =>
  match takeTwoDigits r7 with
  | none => none
  | some (mi, r8) =>
  match expectChar ':' r8 with
  | none => none
  | some r9 =>
  match takeTwoDigits r9 with
  | none => none
  | some (sec, r10) =>
  match expectChar '.' r10 with
  | none => none
  | some r11 =>
  match takeFraction r11 with
  | none => none
  | some (micro, r12) =>
  match takeOffset r12 with
  | none => none
  | some (off, r13) =>
    if r13 = [] ∧ 1 ≤ mo ∧ mo ≤ 12 ∧ 1 ≤ d ∧ d ≤ daysInMonth y mo ∧
        h ≤ 23 ∧ mi ≤ 59 ∧ sec ≤ 59 then
      some ⟨y, mo, d, h, mi, sec, micro, off⟩
    else none

/-- Days from the civil epoch 1970-01-01 of a Gregorian date
(Euclidean division, valid for all years). -/
def daysFromCivil (y m d : ℤ) : ℤ :=
  let y' := if m ≤ 2 then y - 1 else y
  let m' := if m ≤ 2 then m + 9 else m - 3
  365 * y' + Int.ediv y' 4 - Int.ediv y' 100 + Int.ediv y' 400 +
    Int.ediv (153 * m' + 2) 5 + d - 1 - 719468

/-- Absolute instant of an aware datetime, in microseconds since the Unix
epoch: the wall-clock fields minus the UTC offset.  This is how Python
subtracts two aware datetimes — the offset is normalized away, i.e. the
instant is taken in UTC. -/
def toEpochMicros (dt : PyDatetime) : ℤ :=
  (((daysFromCivil dt.year dt.month dt.day * 24 + dt.hour) * 60 + dt.minute) * 60
      + dt.second) * 1000000 + dt.micro - dt.tzOffsetMinutes * 60 * 1000000

example : parseDatetime "2024-01-01T00:00:00.000000+0000" =
    some ⟨2024, 1, 1, 0, 0, 0, 0, 0⟩ := by decide
example : parseDatetime "2024-01-01T00:00:00.000000" = none := by decide
example : parseDatetime "2024-01-01T12:30:05.123456Z" =
    some ⟨2024, 1, 1, 12, 30, 5, 123456, 0⟩ := by decide
example : parseDatetime "2024-01-01T12:00:00.5+0200" =
    some ⟨2024, 1, 1, 12, 0, 0, 500000, 120⟩ := by decide
example : toEpochMicros ⟨1970, 1, 1, 0, 0, 0, 0, 0⟩ = 0 := by decide

/-- Characters removed by Python `str.strip()` (ASCII whitespace; the
templates contain no exotic Unicode spaces). -/
def isPySpace (c : Char) : Bool :=
  c = ' ' ∨ c = '\t' ∨ c = '\n' ∨ c = '\r' ∨ c = '\x0b' ∨ c = '\x0c'

/-- Python `str.strip()`. -/
def pyStrip (s : String) : String :=
  ⟨((s.data.dropWhile isPySpace).reverse.dropWhile isPySpace).reverse⟩

/-- Whether `cs` begins with `pat`. -/
def beginsWith : List Char → List Char → Bool
  | _, [] => true
  | [], _ :: _ => false
  | c :: cs, p :: ps => c = p && beginsWith cs ps

/-- Index of the first occurrence of `pat` in `cs`, if any. -/
def findSub (pat : List Char) : List Char → Option ℕ
  | [] => if pat = [] then some 0 else none
  | c :: cs =>
    if beginsWith (c :: cs) pat then some 0
    else (findSub pat cs).map (· + 1)

/-- Python `pat in s` on strings. -/
def containsSub (s pat : String) : Bool := (findSub pat.data s.data).isSome

/-- The characters of `"<span"`. -/
def spanOpen : List Char := ['<', 's', 'p', 'a', 'n']

/-- The characters of `"</span>"`. -/
def spanClose : List Char := ['<', '/', 's', 'p', 'a', 'n', '>']

/-- Length of the match of the regex `<span.*?>.*?</span>` anchored at the
head of `cs`, if it matches there: literal `<span`, shortest run to a `>`,
shortest run to a `</span>`. -/
def matchSpanLen (cs : List Char) : Option ℕ :=
  if beginsWith cs spanOpen then
    match findSub ['>'] (cs.drop 5) with
    | none => none
    | some g =>
      match findSub spanClose ((cs.drop 5).drop (g + 1)) with
      | none => none
      | some c => some (5 + g + 1 + c + 7)
  else none


/-- `re.split("(<span.*?>.*?</span>)", s)` (line 144): alternate literal
text chunks with captured span groups, scanning left to right; `acc` holds
the pending text chunk, reversed.  Structural recursion on `fuel`; every
step consumes at least one character, so `fuel = cs.length` never runs
out (a successful span match has length `n ≥ 13`, so dropping `n - 1`
from the tail advances past it). -/
def splitSpansGo (fuel : ℕ) (cs acc : List Char) : List String :=
  match fuel, cs with
  | _, [] => [String.mk acc.reverse]
  | 0, cs => [String.mk (acc.reverse ++ cs)]
  | fuel + 1, c :: rest =>
    match matchSpanLen (c :: rest) with
    | some n =>
      String.mk acc.reverse :: String.mk ((c :: rest).take n) ::
        splitSpansGo fuel (rest.drop (n - 1)) []
    | none => splitSpansGo fuel rest (c :: acc)

/-- Lines 144-145: split the label on span groups and drop empty parts
(`filter(None, ...)`). -/
def splitLabel (s : String) : List String :=
  (splitSpansGo s.data.length s.data []).filter (fun p => p ≠ "")

/-- `re.sub(r"<span.*?>|</span>", "", part)` (line 154): delete every
non-overlapping match of either alternative, scanning left to right.
A string beginning with `<span` cannot also begin with `</span>`, so the
two alternatives are tried in sequence without overlap.  Structural on
`fuel`, which never runs out for `fuel = cs.length`. -/
def stripTagsGo (fuel : ℕ) (cs : List Char) : List Char :=
  match fuel, cs with
  | _, [] => []
  | 0, cs => cs
  | fuel + 1, c :: rest =>
    if beginsWith (c :: rest) spanOpen then
      match findSub ['>'] (rest.drop 4) with
      | some g => stripTagsGo fuel (rest.drop (4 + g + 1))
      | none => c :: stripTagsGo fuel rest
    else if beginsWith (c :: rest) spanClose then
      stripTagsGo fuel (rest.drop 6)
    else c :: stripTagsGo fuel rest

/-- Line 154: strip span tags from an icon part, then `strip()` it. -/
def stripSpanTags (s : String) : String := pyStrip ⟨stripTagsGo s.data.length s.data⟩

example : splitLabel "<span>X</span> {missing}" = ["<span>X</span>", " {missing}"] := by decide
example : stripSpanTags "<span class=icon>X</span>" = "X" := by decide
example : pyStrip "  a b  " = "a b" := by decide

instance {ε α : Type} [DecidableEq ε] [DecidableEq α] : DecidableEq (Except ε α)
  | Except.ok a, Except.ok b =>
    if h : a = b then isTrue (by rw [h]) else isFalse (by simp [h])
  | Except.error e, Except.error f =>
    if h : e = f then isTrue (by rw [h]) else isFalse (by simp [h])
  | Except.ok _, Except.error _ => isFalse (fun hc => Except.noConfusion hc)
  | Except.error _, Except.ok _ => isFalse (fun hc => Except.noConfusion hc)

/-- Python `str.format_map` restricted to what the widget's templates use:
literal text, `\x7b\x7b`/`\x7d\x7d` escapes, and plain `\x7bfield\x7d`
references (no conversion or format-spec syntax).  A reference to a key
absent from `data` raises `KeyError(field)`; a lone closing brace or an
unterminated field raises `ValueError`; an empty field name would consume
a positional argument and raises `IndexError` here.  Structural on `fuel`,
which never runs out for `fuel = cs.length`. -/
def formatGo (data : List (String × String)) : ℕ → List Char → Except PyExc (List Char)
  | _, [] => Except.ok []
  | 0, cs => Except.ok cs
  | fuel + 1, '{' :: '{' :: rest => (fun t => '{' :: t) <$> formatGo data fuel rest
  | fuel + 1, '}' :: '}' :: rest => (fun t => '}' :: t) <$> formatGo data fuel rest
  | _ + 1, '}' :: _ => Except.error PyExc.valueError
  | fuel + 1, '{' :: rest =>
    let nm := rest.takeWhile (fun c => c ≠ '}')
    match rest.drop nm.length with
    | [] => Except.error PyExc.valueError
    | _ :: after =>
      if nm.contains '{' then Except.error PyExc.valueError
      else if nm = [] then Except.error PyExc.indexError
      else
        match dictGet (String.mk nm) data with
        | none => Except.error (PyExc.keyError (String.mk nm))
        | some v => (fun t => v.data ++ t) <$> formatGo data fuel after
  | fuel + 1, c :: rest => (fun t => c :: t) <$> formatGo data fuel rest

/-- `part.format_map(self._status_data)` (lines 157 and 164). -/
def pyFormatMap (s : String) (data : List (String × String)) : Except PyExc String :=
  String.mk <$> formatGo data s.data.length s.data

/-- The loop of `GlucoseMonitor._update_label` (lines 146-159) over the
already-split label parts.  Widgets are the texts of the `QLabel`s built
from the label template; `setText` is modelled by `List.set`.  Returns the
widget texts after the loop together with the exception that aborted it,
if any: an exception leaves the updates made by earlier iterations in
place. -/
def updateLabelGo (data : List (String × String)) :
    List String → ℕ → List String → List String × Option PyExc
  | [], _, ws => (ws, none)
  | p :: parts, idx, ws =>
    let p' := pyStrip p
    if p' = "" ∨ ws.length ≤ idx then updateLabelGo data parts idx ws
    else if containsSub p' "<span" && containsSub p' "</span>" then
      updateLabelGo data parts (idx + 1) (ws.set idx (stripSpanTags p'))
    else
      match pyFormatMap p' data with
      | Except.error e => (ws, some e)
      | Except.ok t => updateLabelGo data parts (idx + 1) (ws.set idx t)

/-- `GlucoseMonitor._update_label` without the trailing tooltip step:
split the label template and walk the widgets. -/
def updateLabel (label : String) (data : List (String × String))
    (widgets : List String) : List String × Option PyExc :=
  updateLabelGo data (splitLabel label) 0 widgets

/-- `GlucoseMonitor.direction_icons_mapping` (lines 73-81). -/
def directionIconsMapping : List (String × String) :=
  [("double_up", "DoubleUp"), ("single_up", "SingleUp"),
   ("forty_five_up", "FortyFiveUp"), ("flat", "Flat"),
   ("forty_five_down", "FortyFiveDown"), ("single_down", "SingleDown"),
   ("double_down", "DoubleDown")]

/-- The seven known trend codes (the values of `direction_icons_mapping`). -/
def knownDirectionCodes : List String :=
  ["DoubleUp", "SingleUp", "FortyFiveUp", "Flat",
   "FortyFiveDown", "SingleDown", "DoubleDown"]

/-- Line 101: `{self.direction_icons_mapping[key]: value for key, value in direction_icons.items()}` —
re-key the configured glyph table by trend code; `none` when a configured
key is not one of the seven snake-case names (a `KeyError` at
construction time). -/
def mkDirectionIcons : List (String × String) → Option (List (String × String))
  | [] => some []
  | (k, v) :: rest =>
    match dictGet k directionIconsMapping with
    | none => none
    | some code =>
      match mkDirectionIcons rest with
      | none => none
      | some tail => some ((code, v) :: tail)

/-- The configuration the handler consumes, as resolved in
`GlucoseMonitor.__init__`: the label template, the tooltip template, the
re-keyed direction glyph table (`self._direction_icons`) and the
measurement-unit name. -/
structure Config where
  label : String
  tooltip : String
  directionIcons : List (String × String)
  sgvMeasurementUnits : String

/-- The mutable display state of the widget: `self._status_data`, the
texts of the label's `QLabel` widgets, and the tooltip text. -/
structure WidgetState where
  statusData : List (String × String)
  widgets : List String
  tooltipText : Option String
  deriving DecidableEq, Repr

/-- `GlucoseMonitor._handle_error_signal` (lines 167-169): shows a toast
with the message; the display state is untouched. -/
def handleErrorSignal (st : WidgetState) (msg : String) : WidgetState × String :=
  (st, msg)

/-- `GlucoseMonitor._handle_status_update` (lines 171-195).  Returns the
error-sink messages emitted, the outcome (`Except.error e` when the
Python handler would raise `e`), and the widget state as left behind.
Steps, in source order: parse `date_string` (raises `ValueError` on
failure), compute the staleness minutes, look up the direction glyph
(raises `KeyError` on an unknown code), look up the unit converter
(on a miss: emit "Wrong measurement units" to the error sink, then call
the `None` converter, raising `TypeError`), build `self._status_data`,
then run `_update_label` and the tooltip formatting. -/
def handleStatusUpdate (cfg : Config) (now : ℤ) (st : WidgetState)
    (sgv sgvDelta : ℚ) (dateString direction : String) :
    List String × Except PyExc Unit × WidgetState :=
  match parseDatetime dateString with
  | none => ([], Except.error PyExc.valueError, st)
  | some dt =>
    let deltaTimeInMinutes := minutesSince (toEpochMicros dt) now
    match dictGet direction cfg.directionIcons with
    | none => ([], Except.error (PyExc.keyError direction), st)
    | some icon =>
      match dictGet cfg.sgvMeasurementUnits availableSgvMeasurementUnits with
      | none => (["Wrong measurement units"], Except.error PyExc.typeError, st)
      | some convertSgv =>
        let data := [("sgv", convertSgv sgv), ("sgv_delta", convertSgv sgvDelta),
                     ("delta_time_in_minutes", toString deltaTimeInMinutes),
                     ("direction", icon)]
        let st1 : WidgetState := { st with statusData := data }
        let res := updateLabelGo data (splitLabel cfg.label) 0 st1.widgets
        let st2 : WidgetState := { st1 with widgets := res.1 }
        match res.2 with
        | some e => ([], Except.error e, st2)
        | none =>
          if cfg.tooltip ≠ "" then
            match pyFormatMap cfg.tooltip data with
            | Except.error e => ([], Except.error e, st2)
            | Except.ok tt => ([], Except.ok (), { st2 with tooltipText := some tt })
          else ([], Except.ok (), st2)

/-- An event seen by the polling machinery: a trigger (`QTimer.timeout`
tick or a manual refresh, both wired to `QThread.start`, lines 132-136)
or the completion of the worker's `run`. -/
inductive SchedulerEvent where
  | trigger
  | complete
  deriving DecidableEq, Repr

/-- Poll-scheduler state: `active` counts currently running fetches,
`started` counts fetches ever started. -/
structure SchedulerState where
  active : ℕ
  started : ℕ
  deriving DecidableEq, Repr

/-- One scheduler transition.  A trigger calls `QThread.start`, whose
documented Qt semantics is a no-op when the thread is already running —
so a trigger while a fetch is outstanding leaves the state exactly as it
is (dropped, not queued); a trigger while idle starts one fetch.
Completion ends the running fetch. -/
def schedulerStep (s : SchedulerState) (e : SchedulerEvent) : SchedulerState :=
  match e with
  | SchedulerEvent.trigger =>
    if s.active = 0 then { active := 1, started := s.started + 1 } else s
  | SchedulerEvent.complete => { s with active := s.active - 1 }

example : pyFormatMap "a{sgv}b" [("sgv", "120")] = Except.ok "a120b" := by decide
example : pyFormatMap "{x}" [("sgv", "120")] = Except.error (PyExc.keyError "x") := by decide
example : updateLabel "<span>X</span> {missing}" [("sgv", "120")] ["a", "b"] =
    (["X", "b"], some (PyExc.keyError "missing")) := by decide

/-- Any state with at most one active fetch keeps at most one active
fetch under every scheduler transition. -/
theorem schedulerStep_active_le (s : SchedulerState) (e : SchedulerEvent)
    (hs : s.active ≤ 1) : (schedulerStep s e).active ≤ 1 := by
  cases e with
  | trigger => simp only [schedulerStep]; split <;> simp_all
  | complete => simp only [schedulerStep]; omega

/-- Along any event trace from a state with at most one active fetch, at
most one fetch is active. -/
theorem schedulerTrace_active_le (evs : List SchedulerEvent) :
    ∀ s : SchedulerState, s.active ≤ 1 →
      (List.foldl schedulerStep s evs).active ≤ 1 := by
  induction evs with
  | nil => intro s hs; exact hs
  | cons e evs ih =>
    intro s hs
    exact ih _ (schedulerStep_active_le s e hs)

/-- C9: a trigger (timer tick or manual refresh) arriving while a fetch
is outstanding leaves the scheduler state exactly unchanged — dropped,
not queued — while a trigger in the idle state starts exactly one fetch;
a pair of triggers whose second arrives in-flight therefore executes
exactly one fetch, and along any event trace from the initial state at
most one fetch is ever in flight. -/
theorem C9_in_flight_exclusion (s : SchedulerState) (evs : List SchedulerEvent) :
    (s.active ≠ 0 → schedulerStep s SchedulerEvent.trigger = s) ∧
    (s.active = 0 →
      schedulerStep (schedulerStep s SchedulerEvent.trigger) SchedulerEvent.trigger =
        schedulerStep s SchedulerEvent.trigger ∧
      (schedulerStep s SchedulerEvent.trigger).started = s.started + 1) ∧
    (List.foldl schedulerStep ⟨0, 0⟩ evs).active ≤ 1 := by
  refine ⟨?_, ?_, schedulerTrace_active_le evs ⟨0, 0⟩ (by simp)⟩
  · intro h
    simp [schedulerStep, h]
  · intro h
    constructor
    · simp [schedulerStep, h]
    · simp [schedulerStep, h]

/-- Witness for C9 at concrete states: an idle scheduler that receives
two triggers while the first fetch is outstanding runs exactly one fetch,
and a busy scheduler drops a trigger. -/
theorem C9_in_flight_exclusion_witness :
    (schedulerStep (schedulerStep ⟨0, 5⟩ SchedulerEvent.trigger) SchedulerEvent.trigger =
        schedulerStep ⟨0, 5⟩ SchedulerEvent.trigger ∧
      (schedulerStep ⟨0, 5⟩ SchedulerEvent.trigger).started = 5 + 1) ∧
    schedulerStep ⟨1, 3⟩ SchedulerEvent.trigger = ⟨1, 3⟩ :=
  ⟨(C9_in_flight_exclusion ⟨0, 5⟩ []).2.1 rfl,
   (C9_in_flight_exclusion ⟨1, 3⟩ []).1 (by decide)⟩

/-- C10: one invocation of the worker's `run` emits nothing when the
worker was stopped, and otherwise emits exactly one signal — either one
`status_updated` carrying the first array element's four fields, or one
`error_signal` — never both. -/
theorem C10_run_emits_one_signal (net : NetResult) (j : JValue)
    (sgv delta : ℚ) (ds dir : String)
    (hread : readEntry j = some (sgv, delta, ds, dir)) :
    workerRun false net = [] ∧
    (workerRun true net).length = 1 ∧
    workerRun true (NetResult.response 200 (some j)) =
      [Signal.status sgv delta ds dir] := by
  refine ⟨rfl, ?_, ?_⟩
  · cases net with
    | raised => rfl
    | response status body =>
      cases body with
      | none => rfl
      | some j' =>
        simp only [workerRun, Bool.true_eq_false, if_false]
        split
        · rfl
        · cases hr : readEntry j' with
          | none => rfl
          | some q => obtain ⟨a, b, c, d⟩ := q; rfl
  · simp [workerRun, hread]

/-- Witness for C10 at a concrete response. -/
theorem C10_run_emits_one_signal_witness :
    workerRun false NetResult.raised = [] ∧
    (workerRun true NetResult.raised).length = 1 ∧
    workerRun true (NetResult.response 200 (some (JValue.arr [JValue.obj
        [("sgv", JValue.num 120), ("delta", JValue.num (-3)),
         ("dateString", JValue.str "2024-01-01T00:00:00.000000+0000"),
         ("direction", JValue.str "Flat")]]))) =
      [Signal.status 120 (-3) "2024-01-01T00:00:00.000000+0000" "Flat"] :=
  C10_run_emits_one_signal NetResult.raised _ 120 (-3)
    "2024-01-01T00:00:00.000000+0000" "Flat" (by decide)

/-- C4 counterexample: at the claim's own example status 500, `urlopen`
raises `HTTPError` before the status is ever read, the bare `except`
catches it, and the error sink receives the generic
"Error while loading response" — a message that does not carry the
received status code, unlike the BadStatus-kind message the claim
demands. -/
theorem C4_bad_status_cex :
    fetchCycle true 500 (some (JValue.arr [])) =
      [Signal.error "Error while loading response"] ∧
    Signal.error "Error while loading response" ≠
      Signal.error ("Response status code should be 200 but got " ++ toString (500 : ℤ)) :=
  ⟨by decide, by decide⟩

/-- C4 (amended): for every exchange ending in a non-2xx status such as
500, `urlopen` raises `HTTPError`, the generic handler catches it, and
the error sink receives "Error while loading response" without the
status code; only a 2xx status other than 200 (for example 201) reaches
the `status != 200` RuntimeError branch and produces the BadStatus-kind
message carrying the received code.  In both cases handling the error
signal leaves the previously published widget state unchanged. -/
theorem C4_bad_status (status : ℤ) (j : JValue) (st : WidgetState) (msg : String) :
    (¬(200 ≤ status ∧ status ≤ 299) →
      fetchCycle true status (some j) =
        [Signal.error "Error while loading response"]) ∧
    (200 ≤ status ∧ status ≤ 299 → status ≠ 200 →
      fetchCycle true status (some j) =
        [Signal.error ("Response status code should be 200 but got " ++ toString status)]) ∧
    (handleErrorSignal st msg).1 = st := by
  refine ⟨?_, ?_, rfl⟩
  · intro h
    rw [fetchCycle, urlopenResult, if_neg h]
    rfl
  · intro h2xx hne
    rw [fetchCycle, urlopenResult, if_pos h2xx]
    simp [workerRun, hne]

/-- Witness for C4: status 500 yields the generic message, status 201
yields the message carrying the code, and error handling preserves a
concrete widget state. -/
theorem C4_bad_status_witness :
    fetchCycle true 500 (some (JValue.obj [])) =
      [Signal.error "Error while loading response"] ∧
    fetchCycle true 201 (some (JValue.obj [])) =
      [Signal.error ("Response status code should be 200 but got " ++ toString (201 : ℤ))] ∧
    (handleErrorSignal ⟨[("sgv", "120")], ["w"], none⟩ "Error while loading response").1 =
      ⟨[("sgv", "120")], ["w"], none⟩ :=
  ⟨(C4_bad_status 500 (JValue.obj []) ⟨[("sgv", "120")], ["w"], none⟩
      "Error while loading response").1 (by decide),
   (C4_bad_status 201 (JValue.obj []) ⟨[("sgv", "120")], ["w"], none⟩
      "Error while loading response").2.1 (by decide) (by decide),
   (C4_bad_status 500 (JValue.obj []) ⟨[("sgv", "120")], ["w"], none⟩
      "Error while loading response").2.2⟩

/-- C8 counterexample: an empty configured secret differs from the
sentinel `"env"`, yet the code resolves the secret from the environment
variable instead of using the empty literal. -/
theorem C8_secret_resolution_cex :
    resolveSecret "" (some "tok") = some "tok" ∧
    ("" : String) ≠ "env" ∧
    resolveSecret "" (some "tok") ≠ some "" := by
  refine ⟨rfl, by decide, by decide⟩

/-- C8 (amended): the literal secret is used exactly when it differs from
`"env"` AND is non-empty; when it equals `"env"` or is empty (both falsy
paths of the `and`/`or` idiom) the secret is resolved from the named
environment variable. -/
theorem C8_secret_resolution (secret : String) (envValue : Option String) :
    (secret ≠ "env" → secret ≠ "" → resolveSecret secret envValue = some secret) ∧
    (secret = "env" ∨ secret = "" → resolveSecret secret envValue = envValue) := by
  constructor
  · intro h1 h2
    simp [resolveSecret, h1, h2]
  · rintro (h | h) <;> subst h <;> simp [resolveSecret]

/-- Witness for C8 at concrete secrets. -/
theorem C8_secret_resolution_witness :
    resolveSecret "abc" (some "tok") = some "abc" ∧
    resolveSecret "env" (some "tok") = some "tok" :=
  ⟨(C8_secret_resolution "abc" (some "tok")).1 (by decide) (by decide),
   (C8_secret_resolution "env" (some "tok")).2 (Or.inl rfl)⟩

/-- A successful `dictGet` finds an entry of the list with that key. -/
theorem dictGet_mem {α : Type} {k : String} {v : α} :
    ∀ {l : List (String × α)}, dictGet k l = some v → (k, v) ∈ l := by
  intro l
  induction l with
  | nil => intro h; simp [dictGet] at h
  | cons kv rest ih =>
    intro h
    obtain ⟨k', v'⟩ := kv
    simp only [dictGet] at h
    by_cases hk : k' = k
    · rw [if_pos hk] at h
      cases h
      subst hk
      exact List.mem_cons_self _ _
    · rw [if_neg hk] at h
      exact List.mem_cons_of_mem _ (ih h)

/-- Every value of `direction_icons_mapping` is one of the seven known
trend codes. -/
theorem mapping_value_known {k code : String}
    (h : dictGet k directionIconsMapping = some code) :
    code ∈ knownDirectionCodes := by
  have hm := dictGet_mem h
  simp only [directionIconsMapping, List.mem_cons, List.not_mem_nil, or_false] at hm
  rcases hm with h1 | h1 | h1 | h1 | h1 | h1 | h1 <;>
    (injection h1 with hk hc; subst hc; decide)

/-- `self._direction_icons` is keyed only by the seven known trend codes,
so a direction outside that set misses the table. -/
theorem dictGet_mkDirectionIcons_none {raw icons : List (String × String)}
    (hmk : mkDirectionIcons raw = some icons) {dir : String}
    (hdir : dir ∉ knownDirectionCodes) : dictGet dir icons = none := by
  induction raw generalizing icons with
  | nil =>
    simp only [mkDirectionIcons] at hmk
    cases hmk
    rfl
  | cons kv raw ih =>
    obtain ⟨k, v⟩ := kv
    simp only [mkDirectionIcons] at hmk
    cases hcode : dictGet k directionIconsMapping with
    | none => rw [hcode] at hmk; cases hmk
    | some code =>
      rw [hcode] at hmk
      cases htail : mkDirectionIcons raw with
      | none => rw [htail] at hmk; cases hmk
      | some tail =>
        rw [htail] at hmk
        cases hmk
        have hknown := mapping_value_known hcode
        have hne : code ≠ dir := fun hcd => hdir (hcd ▸ hknown)
        simp only [dictGet, if_neg hne]
        exact ih htail

/-- C3 counterexample: a response whose first element carries the unknown
direction code `"Unknown"` is NOT rejected by the fetch — the worker
emits a successful `status_updated` signal carrying it, not a
malformed-response error. -/
theorem C3_unknown_direction_cex :
    workerRun true (NetResult.response 200 (some (JValue.arr [JValue.obj
        [("sgv", JValue.num 120), ("delta", JValue.num (-3)),
         ("dateString", JValue.str "2024-01-01T00:00:00.000000+0000"),
         ("direction", JValue.str "Unknown")]]))) =
      [Signal.status 120 (-3) "2024-01-01T00:00:00.000000+0000" "Unknown"] := by
  decide

/-- C3 (amended): the fetch performs no direction validation — a
direction outside the seven known trend codes is emitted in a successful
`status_updated` signal and reaches the handler's direction-glyph lookup,
which raises `KeyError` for it, aborting the cycle with the widget state
unchanged. -/
theorem C3_unknown_direction (j : JValue) (sgv delta : ℚ) (ds dir : String)
    (raw icons : List (String × String)) (label tooltip units : String)
    (now : ℤ) (st : WidgetState) (dt : PyDatetime)
    (hread : readEntry j = some (sgv, delta, ds, dir))
    (hmk : mkDirectionIcons raw = some icons)
    (hdir : dir ∉ knownDirectionCodes)
    (hparse : parseDatetime ds = some dt) :
    workerRun true (NetResult.response 200 (some j)) =
      [Signal.status sgv delta ds dir] ∧
    handleStatusUpdate ⟨label, tooltip, icons, units⟩ now st sgv delta ds dir =
      ([], Except.error (PyExc.keyError dir), st) := by
  constructor
  · simp [workerRun, hread]
  · simp only [handleStatusUpdate, hparse]
    rw [dictGet_mkDirectionIcons_none hmk hdir]

/-- Witness for C3 at a concrete response and configuration. -/
theorem C3_unknown_direction_witness :
    workerRun true (NetResult.response 200 (some (JValue.arr [JValue.obj
        [("sgv", JValue.num 130), ("delta", JValue.num 2),
         ("dateString", JValue.str "2024-01-01T00:05:00.000000+0000"),
         ("direction", JValue.str "NotComputable")]]))) =
      [Signal.status 130 2 "2024-01-01T00:05:00.000000+0000" "NotComputable"] ∧
    handleStatusUpdate ⟨"{sgv}", "", [("Flat", "F")], "mg/dl"⟩ 0
        ⟨[("sgv", "old")], ["w"], none⟩ 130 2
        "2024-01-01T00:05:00.000000+0000" "NotComputable" =
      ([], Except.error (PyExc.keyError "NotComputable"),
        ⟨[("sgv", "old")], ["w"], none⟩) :=
  C3_unknown_direction _ 130 2 "2024-01-01T00:05:00.000000+0000" "NotComputable"
    [("flat", "F")] [("Flat", "F")] "{sgv}" "" "mg/dl" 0
    ⟨[("sgv", "old")], ["w"], none⟩ ⟨2024, 1, 1, 0, 5, 0, 0, 0⟩
    (by decide) (by decide) (by decide) (by decide)

/-- C6: the staleness computation equals the floor of the elapsed seconds
divided by 60 (floor division), is monotonically non-decreasing as `now`
advances with the reading timestamp fixed, yields a non-positive value
without error when the timestamp lies in the future, and maps 119 elapsed
seconds to 1 minute and 120 elapsed seconds to 2 minutes. -/
theorem C6_minutes_since (t now now2 : ℤ) :
    minutesSince t now = ⌊((now - t : ℤ) : ℚ) / 1000000 / 60⌋ ∧
    (now ≤ now2 → minutesSince t now ≤ minutesSince t now2) ∧
    (now < t → minutesSince t now ≤ 0) ∧
    minutesSince t (t + 119 * 1000000) = 1 ∧
    minutesSince t (t + 120 * 1000000) = 2 := by
  have hpos : (0 : ℤ) ≤ 60000000 := by norm_num
  refine ⟨minutesSince_eq_floor t now, ?_, ?_, ?_, ?_⟩
  · intro h
    rw [minutesSince, minutesSince, Int.fdiv_eq_ediv _ hpos, Int.fdiv_eq_ediv _ hpos]
    omega
  · intro h
    rw [minutesSince, Int.fdiv_eq_ediv _ hpos]
    omega
  · rw [minutesSince, Int.fdiv_eq_ediv _ hpos]
    omega
  · rw [minutesSince, Int.fdiv_eq_ediv _ hpos]
    omega

/-- Witness for C6: 60 to 120 elapsed seconds is monotone, and a reading
100 seconds in the future yields a non-positive staleness. -/
theorem C6_minutes_since_witness :
    minutesSince 0 (60 * 1000000) ≤ minutesSince 0 (120 * 1000000) ∧
    minutesSince (100 * 1000000) 0 ≤ 0 :=
  ⟨(C6_minutes_since 0 (60 * 1000000) (120 * 1000000)).2.1 (by norm_num),
   (C6_minutes_since (100 * 1000000) 0 0).2.2.1 (by norm_num)⟩

/-- `pyRound` always lands within half a unit of its argument, and lands
exactly half a unit away only on an even integer. -/
theorem pyRound_nearest_tie_even (q : ℚ) :
    |q - (pyRound q : ℚ)| ≤ 1 / 2 ∧
    (|q - (pyRound q : ℚ)| = 1 / 2 → pyRound q % 2 = 0) := by
  have h0 : (0 : ℚ) ≤ q - ⌊q⌋ := by
    have := Int.floor_le q; linarith
  have h1 : q - ⌊q⌋ < 1 := by
    have := Int.lt_floor_add_one q; linarith
  unfold pyRound
  split_ifs with hlt hgt heven
  · constructor
    · rw [abs_of_nonneg h0]; linarith
    · intro habs; exfalso; rw [abs_of_nonneg h0] at habs; linarith
  · constructor
    · rw [abs_of_nonpos (by push_cast; linarith)]; push_cast; linarith
    · intro habs; exfalso
      rw [abs_of_nonpos (by push_cast; linarith)] at habs
      push_cast at habs; linarith
  · constructor
    · rw [abs_of_nonneg h0]; linarith
    · intro _; exact heven
  · constructor
    · rw [abs_of_nonpos (by push_cast; linarith)]; push_cast; linarith
    · intro _; omega

/-- C5 (amended): `convert(v, "mg/dl")` is the decimal string of `v`
rounded to the nearest integer with ties rounded to the nearest EVEN
integer (Python banker's rounding, not away from zero), and a negative
delta whose rounded value is negative keeps its minus sign. -/
theorem C5_convert_mgdl (q : ℚ) :
    convertMgdl q = toString (pyRound q) ∧
    |q - (pyRound q : ℚ)| ≤ 1 / 2 ∧
    (|q - (pyRound q : ℚ)| = 1 / 2 → pyRound q % 2 = 0) ∧
    (pyRound q < 0 → ∃ s : String, convertMgdl q = "-" ++ s) := by
  refine ⟨rfl, (pyRound_nearest_tie_even q).1, (pyRound_nearest_tie_even q).2, ?_⟩
  intro hneg
  rcases hn : pyRound q with m | m
  · rw [hn] at hneg
    exact absurd hneg (Int.not_lt.mpr (Int.natCast_nonneg m))
  · exact ⟨Nat.repr (m + 1), by rw [convertMgdl, hn]; rfl⟩

/-- C5 counterexample: at the tie `5/2` the code renders `"2"` (half to
even) while the claimed ties-away-from-zero rule demands `"3"`. -/
theorem C5_convert_mgdl_cex :
    convertMgdl (5 / 2) = "2" ∧ convertMgdlClaimed (5 / 2) = "3" ∧
    convertMgdl (5 / 2) ≠ convertMgdlClaimed (5 / 2) := by
  have h1 : pyRound (5 / 2 : ℚ) = 2 := by
    unfold pyRound
    rw [show ⌊(5 / 2 : ℚ)⌋ = 2 from by rw [Int.floor_eq_iff] <;> norm_num]
    norm_num
  have h2 : roundHalfAwayFromZero (5 / 2 : ℚ) = 3 := by
    unfold roundHalfAwayFromZero
    rw [if_pos (by norm_num : (0 : ℚ) ≤ 5 / 2),
        show (5 / 2 + 1 / 2 : ℚ) = ((3 : ℤ) : ℚ) by norm_num, Int.floor_intCast]
  refine ⟨?_, ?_, ?_⟩
  · rw [convertMgdl, h1]; decide
  · rw [convertMgdlClaimed, h2]; decide
  · rw [convertMgdl, convertMgdlClaimed, h1, h2]; decide

/-- Witness for C5: the tie `3/2` rounds to the even integer 2, and the
negative tie `-5/2` renders with a leading minus sign. -/
theorem C5_convert_mgdl_witness :
    pyRound (3 / 2 : ℚ) % 2 = 0 ∧
    ∃ s : String, convertMgdl (-5 / 2 : ℚ) = "-" ++ s := by
  have e1 : pyRound (3 / 2 : ℚ) = 2 := by
    unfold pyRound
    rw [show ⌊(3 / 2 : ℚ)⌋ = 1 from by rw [Int.floor_eq_iff] <;> norm_num]
    norm_num
  have e2 : pyRound (-5 / 2 : ℚ) = -2 := by
    unfold pyRound
    rw [show ⌊(-5 / 2 : ℚ)⌋ = -3 from by rw [Int.floor_eq_iff] <;> norm_num]
    norm_num
  exact ⟨(C5_convert_mgdl (3 / 2)).2.2.1 (by rw [e1]; norm_num),
         (C5_convert_mgdl (-5 / 2)).2.2.2 (by rw [e2]; norm_num)⟩

/-- C1: with an unrecognized measurement unit the handler does surface
"Wrong measurement units" through the error sink and does leave the
rendered state untouched, but it then calls the absent (`None`) converter
and a `TypeError` escapes the handler — the cycle is aborted by an
uncaught exception, not by a clean return. -/
theorem C1_wrong_units :
    handleStatusUpdate ⟨"{sgv}", "", [("Flat", "F")], "mmol"⟩ 0
        ⟨[("sgv", "old")], ["w"], none⟩ 120 (-3)
        "2024-01-01T00:00:00.000000+0000" "Flat" =
      (["Wrong measurement units"], Except.error PyExc.typeError,
        ⟨[("sgv", "old")], ["w"], none⟩) := by
  decide

/-- C7 counterexample: a `dateString` with no UTC offset is rejected —
`strptime`'s `%z` requires an offset, so parsing fails and the handler
aborts with `ValueError`, instead of accepting the reading and assuming
UTC. -/
theorem C7_offsetless_rejected_cex :
    parseDatetime "2024-01-01T00:02:00.000000" = none ∧
    handleStatusUpdate ⟨"{sgv}", "", [("Flat", "F")], "mg/dl"⟩ 0
        ⟨[("sgv", "old")], ["w"], none⟩ 120 (-3)
        "2024-01-01T00:02:00.000000" "Flat" =
      ([], Except.error PyExc.valueError, ⟨[("sgv", "old")], ["w"], none⟩) :=
  ⟨by decide, by decide⟩

/-- C7 (amended): a `dateString` the format cannot parse — in particular
one omitting the time-zone offset — makes the handler raise `ValueError`
and leave the widget state unchanged; a `dateString` that does carry an
offset is normalized to UTC: wall-clock `12:00` at `+0200` denotes the
same instant as `10:00` at `+0000`. -/
theorem C7_timestamp_parsing (cfg : Config) (now : ℤ) (st : WidgetState)
    (v d : ℚ) (ds dir : String) (h : parseDatetime ds = none) :
    handleStatusUpdate cfg now st v d ds dir =
      ([], Except.error PyExc.valueError, st) ∧
    (parseDatetime "2024-01-01T12:00:00.000000+0200").map toEpochMicros =
      (parseDatetime "2024-01-01T10:00:00.000000+0000").map toEpochMicros ∧
    (parseDatetime "2024-01-01T10:00:00.000000+0000").isSome = true := by
  refine ⟨?_, by decide, by decide⟩
  simp only [handleStatusUpdate, h]

/-- Witness for C7 at a concrete offset-less `dateString`. -/
theorem C7_timestamp_parsing_witness :
    handleStatusUpdate ⟨"{sgv}", "t", [], "mg/dl"⟩ 5 ⟨[], [], none⟩ 1 2
        "2024-01-01T00:02:00.123456" "Flat" =
      ([], Except.error PyExc.valueError, ⟨[], [], none⟩) :=
  (C7_timestamp_parsing ⟨"{sgv}", "t", [], "mg/dl"⟩ 5 ⟨[], [], none⟩ 1 2
    "2024-01-01T00:02:00.123456" "Flat" (by decide)).1

/-- C2 counterexample: with the label `"<span>X</span> {missing}"` and a
Rendered State lacking `missing`, the render raises `KeyError` — but the
first widget's text has already been set to `"X"` and stays set, so a
partial display update survives the aborted render. -/
theorem C2_partial_update_cex :
    updateLabel "<span>X</span> {missing}"
        [("sgv", "120"), ("sgv_delta", "-3"),
         ("delta_time_in_minutes", "2"), ("direction", "F")]
        ["a", "b"] =
      (["X", "b"], some (PyExc.keyError "missing")) ∧
    ("X" : String) ≠ "a" :=
  ⟨by decide, by decide⟩

/-- C2 (amended): when a processed text segment references a field absent
from the Rendered State mapping, the render raises a `KeyError` naming
the field and stops at that segment — the failing widget and all later
widgets keep their previous text — but the updates already applied to
widgets of earlier segments remain in place (a partial display update is
possible).  Stated for a label whose parts are an icon segment followed
by the failing text segment. -/
theorem C2_render_abort (p1 p2 f : String) (data : List (String × String))
    (w0 w1 : String) (ws : List String)
    (h1 : pyStrip p1 ≠ "")
    (h2 : (containsSub (pyStrip p1) "<span" && containsSub (pyStrip p1) "</span>") = true)
    (h3 : pyStrip p2 ≠ "")
    (h4 : (containsSub (pyStrip p2) "<span" && containsSub (pyStrip p2) "</span>") = false)
    (h5 : pyFormatMap (pyStrip p2) data = Except.error (PyExc.keyError f)) :
    updateLabelGo data [p1, p2] 0 (w0 :: w1 :: ws) =
      (stripSpanTags (pyStrip p1) :: w1 :: ws, some (PyExc.keyError f)) := by
  have hc1 : ¬(pyStrip p1 = "" ∨ (w0 :: w1 :: ws).length ≤ 0) := by
    push_neg
    exact ⟨h1, by simp⟩
  unfold updateLabelGo
  rw [if_neg hc1, if_pos h2]
  simp only [List.set_cons_zero]
  have hc2 : ¬(pyStrip p2 = "" ∨
      (stripSpanTags (pyStrip p1) :: w1 :: ws).length ≤ 1) := by
    push_neg
    refine ⟨h3, by simp⟩
  unfold updateLabelGo
  rw [if_neg hc2, if_neg (by simp [h4]), h5]

/-- Witness for C2 at a concrete icon segment and missing field. -/
theorem C2_render_abort_witness :
    updateLabelGo [("a", "1")] ["<span>Y</span>", "{z}"] 0 ["o0", "o1"] =
      (stripSpanTags (pyStrip "<span>Y</span>") :: "o1" :: [],
        some (PyExc.keyError "z")) :=
  C2_render_abort "<span>Y</span>" "{z}" "z" [("a", "1")] "o0" "o1" []
    (by decide) (by decide) (by decide) (by decide) (by decide)
